import Mathlib

/-!
Verification of the Universal wait-time tracking collector.

The development shallowly embeds the collection pipeline:
`src/config.py` (constants), `src/collector.py` (`fetch_park_data`,
`parse_rides`, `collect_park`, `collect_all_parks`, `main`) and
`src/database.py` (`insert_park`, `insert_land`, `insert_ride`,
`insert_wait_time` over an SQLite store with `PRAGMA foreign_keys = ON`).

Python dictionaries coming from the JSON API are modelled as structures
whose optional keys are `Option` fields (`d.get(k)` becomes the field
itself, `d.get(k, default)` becomes `field.getD default`).  The SQLite
tables are modelled as lists of rows; `INSERT OR IGNORE` becomes a
presence test on the primary key; enforced foreign keys make the insert
functions return `Except`.  Network effects are modelled by passing the
outcome of each HTTP attempt as a function argument; `time.sleep` calls
are recorded as a list of waited durations.
-/

namespace WaitTracker

/-! ## Configuration (`src/config.py`) -/

/-- Constant `MAX_RETRIES = 3` from `src/config.py`. -/
def MAX_RETRIES : Nat := 3

/-- Constant `REQUEST_TIMEOUT = 30` from `src/config.py`. -/
def REQUEST_TIMEOUT : Nat := 30

/-- Constant `PARKS` from `src/config.py`: insertion-ordered dict of park id to name. -/
def PARKS : List (Int × String) :=
  [(64, "Islands of Adventure"),
   (65, "Universal Studios Florida"),
   (334, "Epic Universe")]

/-! ## The JSON shapes returned by the Queue-Times API -/

/-- One ride object of the API response.  Every key may be absent, so
each field is an `Option`; `parse_rides` reads them with `.get`. -/
structure RideJson where
  id : Option Int
  name : Option String
  is_open : Option Bool
  wait_time : Option Int
  last_updated : Option String
deriving DecidableEq, Repr

/-- One land object of the API response: `id`, `name` and a nested
`rides` array, each possibly absent. -/
structure LandJson where
  id : Option Int
  name : Option String
  rides : Option (List RideJson)
deriving DecidableEq, Repr

/-- The per-park API response: an optional `lands` array and an optional
top-level `rides` array. -/
structure ApiResponse where
  lands : Option (List LandJson)
  rides : Option (List RideJson)
deriving DecidableEq, Repr

/-- The flat ride dictionary that `parse_rides` appends to its output
list (`src/collector.py`, lines 116-125 and 129-138). -/
structure RideRecord where
  id : Option Int
  name : Option String
  is_open : Bool
  wait_time : Option Int
  last_updated : Option String
  land_id : Option Int
  land_name : Option String
  park_id : Int
deriving DecidableEq, Repr

/-- The record built for a ride nested in a land (`src/collector.py`
lines 116-125): it carries the parent land's `id` and `name`. -/
def mkLandRecord (park_id : Int) (land : LandJson) (ride : RideJson) : RideRecord :=
  { id := ride.id
    name := ride.name
    is_open := ride.is_open.getD false
    wait_time := ride.wait_time
    last_updated := ride.last_updated
    land_id := land.id
    land_name := land.name
    park_id := park_id }

/-- The record built for a top-level standalone ride (`src/collector.py`
lines 129-138): `land_id` and `land_name` are `None`. -/
def mkStandaloneRecord (park_id : Int) (ride : RideJson) : RideRecord :=
  { id := ride.id
    name := ride.name
    is_open := ride.is_open.getD false
    wait_time := ride.wait_time
    last_updated := ride.last_updated
    land_id := none
    land_name := none
    park_id := park_id }

/-- Function `parse_rides` (`src/collector.py`, lines 84-140), translated
loop-for-loop: start from the empty list, append one record per ride of
each land of `api_response.get("lands", [])`, then one record per ride
of `api_response.get("rides", [])`. -/
def parse_rides (api_response : ApiResponse) (park_id : Int) : List RideRecord :=
  let afterLands := (api_response.lands.getD []).foldl
    (fun acc land =>
      (land.rides.getD []).foldl
        (fun acc2 ride => acc2 ++ [mkLandRecord park_id land ride]) acc)
    []
  (api_response.rides.getD []).foldl
    (fun acc ride => acc ++ [mkStandaloneRecord park_id ride]) afterLands

/-! ## Fetching with retry (`fetch_park_data`, `src/collector.py` lines 43-81) -/

/-- Observable outcome of one call to `fetch_park_data`: the returned
value, the durations passed to `time.sleep` (in order), and how many
request attempts were made. -/
structure FetchTrace where
  result : Option ApiResponse
  waits : List Nat
  attempts : Nat
deriving Repr

/-- The `for attempt in range(MAX_RETRIES)` loop of `fetch_park_data`.
`outcomes i` is what request attempt number `i` (0-based) would produce:
`some data` when the request succeeds with JSON body `data`, `none` when
it raises (timeout, HTTP error, or other request failure).  On success
the function returns at once; on failure it sleeps `2 ** attempt`
seconds, but only when this was not the final attempt
(`attempt < MAX_RETRIES - 1`); after the loop it returns `None`. -/
def fetch_go (outcomes : Nat → Option ApiResponse) (attempt : Nat) : Nat → FetchTrace
  | 0 => { result := none, waits := [], attempts := 0 }
  | remaining + 1 =>
    match outcomes attempt with
    | some data => { result := some data, waits := [], attempts := 1 }
    | none =>
      let rest := fetch_go outcomes (attempt + 1) remaining
      if attempt < MAX_RETRIES - 1 then
        { result := rest.result, waits := 2 ^ attempt :: rest.waits,
          attempts := rest.attempts + 1 }
      else
        { result := rest.result, waits := rest.waits, attempts := rest.attempts + 1 }

/-- Function `fetch_park_data` (`src/collector.py`, lines 43-81): run the retry
loop starting at attempt 0 with `MAX_RETRIES` iterations available. -/
def fetch_park_data (outcomes : Nat → Option ApiResponse) : FetchTrace :=
  fetch_go outcomes 0 MAX_RETRIES

/-- An attempt-outcome function on which every request attempt fails. -/
def failAttempts : Nat → Option ApiResponse := fun _ => none

/-! ## The store calls issued by `collect_park` -/

/-- One call from `src/collector.py` into `src/database.py`, with the
argument values the collector passes (optional-key lookups make several
of them `Option`). -/
inductive StoreCall where
  | insertPark (park_id : Int) (name : String)
  | insertLand (land_id : Int) (park_id : Int) (name : Option String)
  | insertRide (ride_id : Option Int) (park_id : Int) (name : Option String)
      (land_id : Option Int)
  | insertWaitTime (ride_id : Option Int) (wait_time : Option Int) (is_open : Bool)
      (api_last_updated : Option String)
deriving DecidableEq, Repr

/-- The store calls of one iteration of the per-ride loop of
`collect_park` (`src/collector.py`, lines 176-197): `insert_land` only
when `ride["land_id"] is not None`, then `insert_ride`, then
`insert_wait_time`. -/
def ride_calls (park_id : Int) (ride : RideRecord) : List StoreCall :=
  (match ride.land_id with
   | some land_id => [StoreCall.insertLand land_id park_id ride.land_name]
   | none => []) ++
  [StoreCall.insertRide ride.id park_id ride.name ride.land_id,
   StoreCall.insertWaitTime ride.id ride.wait_time ride.is_open ride.last_updated]

/-- Function `collect_park` (`src/collector.py`, lines 143-199): fetch; on
failure return `-1` (no store calls); on success call `insert_park`,
parse the rides and run the per-ride loop, counting one inserted record
per ride.  The first component is the ordered list of store calls, the
second the returned count. -/
def collect_park (outcomes : Nat → Option ApiResponse) (park_id : Int)
    (park_name : String) : List StoreCall × Int :=
  match (fetch_park_data outcomes).result with
  | none => ([], -1)
  | some data =>
    let rides := parse_rides data park_id
    (StoreCall.insertPark park_id park_name :: rides.flatMap (ride_calls park_id),
     (rides.length : Int))

/-- Function `collect_all_parks` (`src/collector.py`, lines 202-240): loop over
`PARKS.items()` in order, storing each park's outcome under its name
(the results dict, insertion-ordered with distinct names, is an
association list).  `outcomesFor pid i` is the outcome of attempt `i`
of the fetch for park `pid`. -/
def collect_all_parks (outcomesFor : Int → Nat → Option ApiResponse) :
    List (String × Int) :=
  PARKS.foldl
    (fun results p => results ++ [(p.2, (collect_park (outcomesFor p.1) p.1 p.2).2)])
    []

/-- The process exit status of a no-flag run of `main`
(`src/collector.py`, lines 264-287): `sys.exit(1)` when any park's
outcome is negative, otherwise a normal exit (status 0). -/
def main_exit_code (outcomesFor : Int → Nat → Option ApiResponse) : Nat :=
  if (collect_all_parks outcomesFor).any (fun r => decide (r.2 < 0)) then 1 else 0

/-- A per-park attempt-outcome function on which every fetch of every
park fails. -/
def failAllParks : Int → Nat → Option ApiResponse := fun _ _ => none

/-! ## Foreign-key discipline of a store-call sequence -/

/-- The ids inserted so far while scanning a store-call sequence. -/
structure SeenIds where
  parks : List Int
  lands : List Int
  rides : List (Option Int)
deriving DecidableEq, Repr

/-- One step of the foreign-key discipline check: a call is admissible
when every id it references was inserted by an earlier call; it extends
the seen ids with the id it inserts. -/
def checkCall (s : SeenIds) : StoreCall → Option SeenIds
  | .insertPark park_id _ => some { s with parks := park_id :: s.parks }
  | .insertLand land_id park_id _ =>
      if s.parks.contains park_id then some { s with lands := land_id :: s.lands }
      else none
  | .insertRide ride_id park_id _ land_id =>
      if s.parks.contains park_id
          && (match land_id with
              | none => true
              | some l => s.lands.contains l) then
        some { s with rides := ride_id :: s.rides }
      else none
  | .insertWaitTime ride_id _ _ _ => if s.rides.contains ride_id then some s else none

/-- A store-call sequence is foreign-key disciplined from a starting
state when every call only references previously inserted ids. -/
def checkCalls (s : SeenIds) : List StoreCall → Bool
  | [] => true
  | c :: cs =>
    match checkCall s c with
    | some s2 => checkCalls s2 cs
    | none => false

/-! ## The store (`src/database.py`) -/

/-- The two observations of `collected_at` that `insert_wait_time`
makes: `datetime.weekday()` (0 = Monday, ..., 6 = Sunday) and
`datetime.hour` (0-23). -/
structure PyDateTime where
  weekday : Fin 7
  hour : Fin 24
deriving DecidableEq, Repr

/-- A row of the `parks` table. -/
structure ParkRow where
  id : Int
  name : String
deriving DecidableEq, Repr

/-- A row of the `lands` table. -/
structure LandRow where
  id : Int
  park_id : Int
  name : String
deriving DecidableEq, Repr

/-- A row of the `rides` table. -/
structure RideRow where
  id : Int
  land_id : Option Int
  park_id : Int
  name : String
deriving DecidableEq, Repr

/-- A row of the `wait_times` table (the surrogate autoincrement key is
the row's position in the list). -/
structure WaitTimeRow where
  ride_id : Int
  wait_time : Option Int
  is_open : Bool
  collected_at : PyDateTime
  api_last_updated : Option String
  day_of_week : Nat
  hour : Nat
  is_weekend : Bool
deriving DecidableEq, Repr

/-- The SQLite database: one list of rows per table, in insertion
order. -/
structure Db where
  parks : List ParkRow
  lands : List LandRow
  rides : List RideRow
  wait_times : List WaitTimeRow
deriving DecidableEq, Repr

/-- The one error the modelled store operations can raise: a foreign-key
constraint violation (`PRAGMA foreign_keys = ON` is set by
`get_connection` on every connection, `src/database.py` line 36). -/
inductive DbError where
  | foreignKeyViolation
deriving DecidableEq, Repr

/-- Function `insert_park` (`src/database.py`, lines 124-141): `INSERT OR IGNORE
INTO parks` — a silent no-op when the primary key is already present,
otherwise append the row. -/
def insert_park (db : Db) (park_id : Int) (name : String) : Except DbError Db :=
  if db.parks.any (fun r => r.id == park_id) then Except.ok db
  else Except.ok { db with parks := db.parks ++ [{ id := park_id, name := name }] }

/-- Function `insert_land` (`src/database.py`, lines 144-162): `INSERT OR IGNORE
INTO lands` — a silent no-op on a primary-key conflict; an actual insert
is subject to the enforced `park_id` foreign key. -/
def insert_land (db : Db) (land_id : Int) (park_id : Int) (name : String) :
    Except DbError Db :=
  if db.lands.any (fun r => r.id == land_id) then Except.ok db
  else if db.parks.any (fun r => r.id == park_id) then
    Except.ok { db with lands := db.lands ++
      [{ id := land_id, park_id := park_id, name := name }] }
  else Except.error DbError.foreignKeyViolation

/-- Function `insert_ride` (`src/database.py`, lines 165-184): `INSERT OR IGNORE
INTO rides` — a silent no-op on a primary-key conflict; an actual insert
is subject to the enforced `park_id` and (when non-null) `land_id`
foreign keys. -/
def insert_ride (db : Db) (ride_id : Int) (park_id : Int) (name : String)
    (land_id : Option Int) : Except DbError Db :=
  if db.rides.any (fun r => r.id == ride_id) then Except.ok db
  else if db.parks.any (fun r => r.id == park_id)
      && land_id.all (fun l => db.lands.any (fun r => r.id == l)) then
    Except.ok { db with rides := db.rides ++
      [{ id := ride_id, land_id := land_id, park_id := park_id, name := name }] }
  else Except.error DbError.foreignKeyViolation

/-- Function `insert_wait_time` (`src/database.py`, lines 187-226): derive
`day_of_week`, `hour` and `is_weekend` from `collected_at`
(`day_of_week = collected_at.weekday()`, `hour = collected_at.hour`,
`is_weekend = day_of_week >= 5`) and append the fact row; the enforced
`ride_id` foreign key makes the write fail when no such ride row
exists. -/
def insert_wait_time (db : Db) (ride_id : Int) (wait_time : Option Int)
    (is_open : Bool) (collected_at : PyDateTime) (api_last_updated : Option String) :
    Except DbError Db :=
  let day_of_week : Nat := collected_at.weekday.val
  let hour : Nat := collected_at.hour.val
  let is_weekend : Bool := decide (5 ≤ day_of_week)
  if db.rides.any (fun r => r.id == ride_id) then
    Except.ok { db with wait_times := db.wait_times ++
      [{ ride_id := ride_id, wait_time := wait_time, is_open := is_open,
         collected_at := collected_at, api_last_updated := api_last_updated,
         day_of_week := day_of_week, hour := hour, is_weekend := is_weekend }] }
  else Except.error DbError.foreignKeyViolation

/-- A store operation with the argument types `src/database.py`
declares (integer ids). -/
inductive DbOp where
  | park (park_id : Int) (name : String)
  | land (land_id : Int) (park_id : Int) (name : String)
  | ride (ride_id : Int) (park_id : Int) (name : String) (land_id : Option Int)
  | wait (ride_id : Int) (wait_time : Option Int) (is_open : Bool)
      (collected_at : PyDateTime) (api_last_updated : Option String)
deriving DecidableEq, Repr

/-- Dispatch one store operation to the corresponding insert. -/
def execOp (db : Db) : DbOp → Except DbError Db
  | .park park_id name => insert_park db park_id name
  | .land land_id park_id name => insert_land db land_id park_id name
  | .ride ride_id park_id name land_id => insert_ride db ride_id park_id name land_id
  | .wait ride_id wait_time is_open collected_at api_last_updated =>
      insert_wait_time db ride_id wait_time is_open collected_at api_last_updated

/-- Run store operations in order; an error stops the run at once (no
operation of `src/collector.py` is wrapped in a `try`, so a raised
constraint violation propagates and the remaining operations never
execute). -/
def runOps (db : Db) : List DbOp → Except DbError Db
  | [] => Except.ok db
  | op :: ops =>
    match execOp db op with
    | Except.ok db2 => runOps db2 ops
    | Except.error e => Except.error e

/-! ## Concrete data for witnesses -/

/-- A concrete ride object with every key present. -/
def demoRide1 : RideJson :=
  { id := some 101, name := some "Ride A", is_open := some true,
    wait_time := some 30, last_updated := some "2026-01-05T14:00:00Z" }

/-- A concrete ride object with only the `id` key present. -/
def demoRide2 : RideJson :=
  { id := some 102, name := none, is_open := none, wait_time := none,
    last_updated := none }

/-- A concrete land containing two rides. -/
def demoLand : LandJson :=
  { id := some 7, name := some "Demo Land", rides := some [demoRide1, demoRide2] }

/-- A concrete land missing its `id` and `name` keys. -/
def demoLandNoId : LandJson :=
  { id := none, name := none, rides := some [demoRide2] }

/-- A concrete API response with one land and one standalone ride. -/
def demoResponse : ApiResponse :=
  { lands := some [demoLand], rides := some [demoRide1] }

/-- A concrete API response whose only land lacks `id` and `name`. -/
def demoResponseNoId : ApiResponse :=
  { lands := some [demoLandNoId], rides := none }

/-- Attempt outcomes where the first request already succeeds. -/
def demoOutcomes : Nat → Option ApiResponse := fun _ => some demoResponse

/-- The empty database. -/
def emptyDb : Db := { parks := [], lands := [], rides := [], wait_times := [] }

/-- A database holding one park and one ride. -/
def demoDb : Db :=
  { parks := [{ id := 64, name := "Islands of Adventure" }]
    lands := []
    rides := [{ id := 101, land_id := none, park_id := 64, name := "Ride A" }]
    wait_times := [] }

/-- A Monday 14:30 collection timestamp (weekday 0, hour 14). -/
def demoMonday : PyDateTime := { weekday := 0, hour := 14 }

/-- Database `demoDb` after recording one Monday reading for ride 101. -/
def demoDbMonday : Db :=
  { demoDb with wait_times :=
      [{ ride_id := 101, wait_time := some 30, is_open := true,
         collected_at := demoMonday, api_last_updated := none,
         day_of_week := 0, hour := 14, is_weekend := false }] }

/-- A database holding only one park row. -/
def demoParkOnlyDb : Db :=
  { parks := [{ id := 64, name := "Islands of Adventure" }]
    lands := []
    rides := []
    wait_times := [] }

/-! ## Helper lemmas -/

theorem foldl_append_map (f : α → β) :
    ∀ (l : List α) (acc : List β),
    l.foldl (fun a x => a ++ [f x]) acc = acc ++ l.map f := by
  intro l
  induction l with
  | nil => intro acc; simp
  | cons x xs ih => intro acc; simp [List.foldl_cons, ih]

theorem foldl_lands_append (park_id : Int) :
    ∀ (lands : List LandJson) (acc : List RideRecord),
    lands.foldl
      (fun a land =>
        (land.rides.getD []).foldl
          (fun a2 ride => a2 ++ [mkLandRecord park_id land ride]) a) acc
    = acc ++ lands.flatMap
        (fun land => (land.rides.getD []).map (mkLandRecord park_id land)) := by
  intro lands
  induction lands with
  | nil => intro acc; simp
  | cons land rest ih =>
      intro acc
      simp only [List.foldl_cons, List.flatMap_cons]
      rw [foldl_append_map, ih, List.append_assoc]

/-- Closed form of `parse_rides`: land-nested records (land order, then
ride order) followed by standalone records (in order). -/
theorem parse_rides_spec (resp : ApiResponse) (park_id : Int) :
    parse_rides resp park_id
    = (resp.lands.getD []).flatMap
        (fun land => (land.rides.getD []).map (mkLandRecord park_id land))
      ++ (resp.rides.getD []).map (mkStandaloneRecord park_id) := by
  simp only [parse_rides]
  rw [foldl_lands_append, List.nil_append, foldl_append_map]

/-! ## Claim C1 -/

/-- C1: the length of `parse_rides`'s output equals the sum of the
lengths of the nested `rides` arrays over all entries of `lands` plus
the length of the top-level `rides` array (absent keys counting as
empty); in particular an empty dictionary, or one whose `lands` is an
empty array, yields the empty list. -/
theorem parse_rides_length_sum (resp : ApiResponse) (park_id : Int) :
    (parse_rides resp park_id).length
      = ((resp.lands.getD []).map (fun land => (land.rides.getD []).length)).sum
        + (resp.rides.getD []).length
    ∧ parse_rides ⟨none, none⟩ park_id = []
    ∧ parse_rides ⟨some [], none⟩ park_id = [] := by
  refine ⟨?_, ?_, ?_⟩
  · rw [parse_rides_spec]
    simp [List.length_flatMap, Function.comp_def, List.length_map]
  · rw [parse_rides_spec]; rfl
  · rw [parse_rides_spec]; rfl

/-! ## Claim C5 -/

/-- C5: `parse_rides` returns all land-nested rides first, ordered by
land encounter order and within each land by ride encounter order,
followed by all standalone top-level rides in encounter order. -/
theorem parse_rides_output_order (resp : ApiResponse) (park_id : Int) :
    parse_rides resp park_id
    = (resp.lands.getD []).flatMap
        (fun land => (land.rides.getD []).map (mkLandRecord park_id land))
      ++ (resp.rides.getD []).map (mkStandaloneRecord park_id) :=
  parse_rides_spec resp park_id

/-! ## Claim C4 -/

/-- C4: every record emitted by `parse_rides` either comes from a ride
nested in a land and carries that land's `id`/`name` as
`land_id`/`land_name`, or comes from a top-level standalone ride and has
`land_id` and `land_name` both null; in both cases `is_open` is the
ride's `is_open` value defaulting to false and `wait_time` is the ride's
`wait_time` value, null when absent. -/
theorem parse_rides_record_fields (resp : ApiResponse) (park_id : Int)
    (r : RideRecord) (hr : r ∈ parse_rides resp park_id) :
    (∃ land ∈ resp.lands.getD [], ∃ ride ∈ land.rides.getD [],
        r = mkLandRecord park_id land ride
        ∧ r.land_id = land.id ∧ r.land_name = land.name
        ∧ r.is_open = ride.is_open.getD false ∧ r.wait_time = ride.wait_time)
    ∨ (∃ ride ∈ resp.rides.getD [],
        r = mkStandaloneRecord park_id ride
        ∧ r.land_id = none ∧ r.land_name = none
        ∧ r.is_open = ride.is_open.getD false ∧ r.wait_time = ride.wait_time) := by
  rw [parse_rides_spec] at hr
  rcases List.mem_append.1 hr with h | h
  · left
    rcases List.mem_flatMap.1 h with ⟨land, hland, hmem⟩
    rcases List.mem_map.1 hmem with ⟨ride, hride, heq⟩
    subst heq
    exact ⟨land, hland, ride, hride, rfl, rfl, rfl, rfl, rfl⟩
  · right
    rcases List.mem_map.1 h with ⟨ride, hride, heq⟩
    subst heq
    exact ⟨ride, hride, rfl, rfl, rfl, rfl, rfl⟩

/-- C4 witness: the record of the first demo ride inside the demo land. -/
theorem parse_rides_record_fields_witness :
    mkLandRecord 64 demoLand demoRide1 ∈ parse_rides demoResponse 64
    ∧ ((∃ land ∈ demoResponse.lands.getD [], ∃ ride ∈ land.rides.getD [],
          mkLandRecord 64 demoLand demoRide1 = mkLandRecord 64 land ride
          ∧ (mkLandRecord 64 demoLand demoRide1).land_id = land.id
          ∧ (mkLandRecord 64 demoLand demoRide1).land_name = land.name
          ∧ (mkLandRecord 64 demoLand demoRide1).is_open = ride.is_open.getD false
          ∧ (mkLandRecord 64 demoLand demoRide1).wait_time = ride.wait_time)
       ∨ (∃ ride ∈ demoResponse.rides.getD [],
          mkLandRecord 64 demoLand demoRide1 = mkStandaloneRecord 64 ride
          ∧ (mkLandRecord 64 demoLand demoRide1).land_id = none
          ∧ (mkLandRecord 64 demoLand demoRide1).land_name = none
          ∧ (mkLandRecord 64 demoLand demoRide1).is_open = ride.is_open.getD false
          ∧ (mkLandRecord 64 demoLand demoRide1).wait_time = ride.wait_time)) :=
  ⟨by decide, parse_rides_record_fields demoResponse 64 _ (by decide)⟩

/-! ## Claim C10 -/

/-- C10: a land entry lacking its `id` key (respectively its `name` key)
still has all its nested rides emitted, with `land_id` (respectively
`land_name`) null; for such a ride `collect_park` issues no
`insert_land` call and upserts the ride with a null land reference,
exactly the calls a standalone ride would get. -/
theorem parse_rides_missing_land_keys (resp : ApiResponse) (park_id : Int)
    (land : LandJson) (ride : RideJson)
    (hland : land ∈ resp.lands.getD []) (hride : ride ∈ land.rides.getD []) :
    mkLandRecord park_id land ride ∈ parse_rides resp park_id
    ∧ (land.id = none →
        (mkLandRecord park_id land ride).land_id = none
        ∧ ride_calls park_id (mkLandRecord park_id land ride)
            = [StoreCall.insertRide ride.id park_id ride.name none,
               StoreCall.insertWaitTime ride.id ride.wait_time
                 (ride.is_open.getD false) ride.last_updated]
        ∧ ride_calls park_id (mkLandRecord park_id land ride)
            = ride_calls park_id (mkStandaloneRecord park_id ride))
    ∧ (land.name = none → (mkLandRecord park_id land ride).land_name = none) := by
  refine ⟨?_, ?_, ?_⟩
  · rw [parse_rides_spec]
    exact List.mem_append.2 (Or.inl
      (List.mem_flatMap.2 ⟨land, hland, List.mem_map.2 ⟨ride, hride, rfl⟩⟩))
  · intro h
    refine ⟨?_, ?_, ?_⟩ <;> simp [mkLandRecord, mkStandaloneRecord, ride_calls, h]
  · intro h
    simp [mkLandRecord, h]

/-- C10 witness: the demo land lacking `id` and `name`, holding one
ride. -/
theorem parse_rides_missing_land_keys_witness :
    demoLandNoId ∈ demoResponseNoId.lands.getD []
    ∧ demoRide2 ∈ demoLandNoId.rides.getD []
    ∧ demoLandNoId.id = none
    ∧ demoLandNoId.name = none
    ∧ mkLandRecord 65 demoLandNoId demoRide2 ∈ parse_rides demoResponseNoId 65
    ∧ (mkLandRecord 65 demoLandNoId demoRide2).land_id = none
    ∧ (mkLandRecord 65 demoLandNoId demoRide2).land_name = none
    ∧ ride_calls 65 (mkLandRecord 65 demoLandNoId demoRide2)
        = ride_calls 65 (mkStandaloneRecord 65 demoRide2) := by
  have h := parse_rides_missing_land_keys demoResponseNoId 65 demoLandNoId demoRide2
    (by decide) (by decide)
  exact ⟨by decide, by decide, rfl, rfl, h.1, (h.2.1 rfl).1, h.2.2 rfl, (h.2.1 rfl).2.2⟩

/-! ## Claim C2 -/

/-- C2 counterexample: in a run where every attempt fails, the sleeps
performed are exactly 1s then 2s — there are only two inter-attempt
waits and none of 4 seconds, contradicting the claimed waits of
"1s, 2s, 4s between attempts" for the `MAX_RETRIES = 3` ceiling. -/
theorem fetch_retry_backoff_counterexample :
    (fetch_park_data failAttempts).waits = [1, 2]
    ∧ (fetch_park_data failAttempts).waits ≠ [1, 2, 4]
    ∧ 4 ∉ (fetch_park_data failAttempts).waits := by
  refine ⟨rfl, by decide, by decide⟩

/-- C2 (amended): `fetch_park_data` makes at most `MAX_RETRIES = 3`
request attempts; the wait between consecutive attempts is
`2 ^ attempt_index` seconds, i.e. 1s then 2s, with no wait after the
final attempt (one fewer wait than attempts); and the failure value is
returned exactly when all three attempts fail. -/
theorem fetch_retry_backoff (outcomes : Nat → Option ApiResponse) :
    (fetch_park_data outcomes).attempts ≤ MAX_RETRIES
    ∧ (fetch_park_data outcomes).waits
        = (List.range ((fetch_park_data outcomes).attempts - 1)).map (fun i => 2 ^ i)
    ∧ (fetch_park_data outcomes).waits.length + 1 = (fetch_park_data outcomes).attempts
    ∧ ((fetch_park_data outcomes).result = none
        ↔ outcomes 0 = none ∧ outcomes 1 = none ∧ outcomes 2 = none) := by
  rcases h0 : outcomes 0 with _ | d0
  · rcases h1 : outcomes 1 with _ | d1
    · rcases h2 : outcomes 2 with _ | d2
      · simp [fetch_park_data, fetch_go, MAX_RETRIES, h0, h1, h2, List.range_succ]
      · simp [fetch_park_data, fetch_go, MAX_RETRIES, h0, h1, h2, List.range_succ]
    · simp [fetch_park_data, fetch_go, MAX_RETRIES, h0, h1, List.range_succ]
  · simp [fetch_park_data, fetch_go, MAX_RETRIES, h0]

/-! ## Claim C7 -/

theorem checkCalls_ride_blocks (park_id : Int) :
    ∀ (records : List RideRecord) (s : SeenIds),
    s.parks.contains park_id = true →
    checkCalls s (records.flatMap (ride_calls park_id)) = true := by
  intro records
  induction records with
  | nil => intro s _; rfl
  | cons r rs ih =>
    intro s hs
    rw [List.flatMap_cons]
    rcases hl : r.land_id with _ | l
    · simp only [ride_calls, hl, List.nil_append, List.cons_append,
        checkCalls, checkCall, hs, Bool.true_and, if_true, List.contains_cons,
        BEq.refl, Bool.true_or, Bool.or_true]
      exact ih _ hs
    · simp only [ride_calls, hl, List.cons_append, List.nil_append,
        checkCalls, checkCall, hs, Bool.true_and, if_true, List.contains_cons,
        BEq.refl, Bool.true_or, Bool.or_true]
      exact ih _ hs

/-- C7: on a successful fetch, the store calls of `collect_park` are the
park upsert first, followed per parsed ride (in `parse_rides` output
order) by its land upsert (only when `land_id` is non-null), its ride
upsert, and its reading — a sequence in which every call references only
ids inserted by earlier calls of the same run. -/
theorem collect_park_fk_discipline (outcomes : Nat → Option ApiResponse)
    (park_id : Int) (park_name : String) (data : ApiResponse)
    (hfetch : (fetch_park_data outcomes).result = some data) :
    (collect_park outcomes park_id park_name).1
      = StoreCall.insertPark park_id park_name
        :: (parse_rides data park_id).flatMap (ride_calls park_id)
    ∧ checkCalls ⟨[], [], []⟩ (collect_park outcomes park_id park_name).1 = true := by
  have hcp : (collect_park outcomes park_id park_name).1
      = StoreCall.insertPark park_id park_name
        :: (parse_rides data park_id).flatMap (ride_calls park_id) := by
    unfold collect_park
    rw [hfetch]
  refine ⟨hcp, ?_⟩
  rw [hcp]
  simp only [checkCalls, checkCall]
  exact checkCalls_ride_blocks park_id _ _ (by simp)

/-- C7 witness: collecting the demo response for park 64. -/
theorem collect_park_fk_discipline_witness :
    (fetch_park_data demoOutcomes).result = some demoResponse
    ∧ checkCalls ⟨[], [], []⟩
        (collect_park demoOutcomes 64 "Islands of Adventure").1 = true :=
  ⟨rfl,
   (collect_park_fk_discipline demoOutcomes 64 "Islands of Adventure" demoResponse
     rfl).2⟩

/-! ## Claim C8 -/

/-- C8: `collect_park` yields the sentinel `-1` for a park whose fetch
fails after all retries; `collect_all_parks` still records an outcome
for every configured park, in configuration order; and the process exit
status of a no-flag run is non-zero exactly when some park's outcome is
negative. -/
theorem collect_all_parks_failure_isolation
    (outcomesFor : Int → Nat → Option ApiResponse) :
    collect_all_parks outcomesFor
      = PARKS.map (fun p => (p.2, (collect_park (outcomesFor p.1) p.1 p.2).2))
    ∧ (∀ p ∈ PARKS, (fetch_park_data (outcomesFor p.1)).result = none →
        (p.2, (-1 : Int)) ∈ collect_all_parks outcomesFor)
    ∧ (main_exit_code outcomesFor ≠ 0
        ↔ ∃ e ∈ collect_all_parks outcomesFor, e.2 < 0) := by
  have hfold : ∀ (ps : List (Int × String)) (acc : List (String × Int)),
      ps.foldl
        (fun results p => results ++ [(p.2, (collect_park (outcomesFor p.1) p.1 p.2).2)])
        acc
      = acc ++ ps.map (fun p => (p.2, (collect_park (outcomesFor p.1) p.1 p.2).2)) := by
    intro ps
    induction ps with
    | nil => intro acc; simp
    | cons p ps ih => intro acc; simp [ih]
  have hmap : collect_all_parks outcomesFor
      = PARKS.map (fun p => (p.2, (collect_park (outcomesFor p.1) p.1 p.2).2)) := by
    unfold collect_all_parks
    rw [hfold, List.nil_append]
  refine ⟨hmap, ?_, ?_⟩
  · intro p hp hfail
    have hval : (collect_park (outcomesFor p.1) p.1 p.2).2 = -1 := by
      unfold collect_park
      rw [hfail]
    rw [hmap]
    exact List.mem_map.2 ⟨p, hp, by rw [hval]⟩
  · constructor
    · intro h
      by_cases ha : (collect_all_parks outcomesFor).any (fun r => decide (r.2 < 0)) = true
      · rcases List.any_eq_true.1 ha with ⟨e, he, hlt⟩
        exact ⟨e, he, by simpa using hlt⟩
      · exact absurd (by simp [main_exit_code, ha]) h
    · rintro ⟨e, he, hlt⟩
      have ha : (collect_all_parks outcomesFor).any (fun r => decide (r.2 < 0)) = true :=
        List.any_eq_true.2 ⟨e, he, by simpa using hlt⟩
      simp [main_exit_code, ha]

/-- C8 witness: a run on which every park's fetch fails; Islands of
Adventure is configured, its outcome is recorded as `-1`, and the run
exits non-zero. -/
theorem collect_all_parks_failure_isolation_witness :
    ((64 : Int), "Islands of Adventure") ∈ PARKS
    ∧ (fetch_park_data (failAllParks 64)).result = none
    ∧ ("Islands of Adventure", (-1 : Int)) ∈ collect_all_parks failAllParks
    ∧ main_exit_code failAllParks ≠ 0 :=
  ⟨by decide, rfl,
   (collect_all_parks_failure_isolation failAllParks).2.1
     (64, "Islands of Adventure") (by decide) rfl,
   ((collect_all_parks_failure_isolation failAllParks).2.2).mpr
     ⟨("Islands of Adventure", -1),
      (collect_all_parks_failure_isolation failAllParks).2.1
        (64, "Islands of Adventure") (by decide) rfl,
      by decide⟩⟩

/-! ## Helper lemmas for the store claims -/

theorem any_eq_false_of_all_not (p : α → Bool) (l : List α)
    (h : l.all (fun x => !(p x)) = true) : l.any p = false := by
  rw [List.any_eq_false]
  intro x hx
  simpa using List.all_eq_true.1 h x hx

theorem insert_wait_time_missing_ride (db : Db) (ride_id : Int)
    (wait_time : Option Int) (is_open : Bool) (collected_at : PyDateTime)
    (api_last_updated : Option String)
    (habs : db.rides.all (fun r => !(r.id == ride_id)) = true) :
    insert_wait_time db ride_id wait_time is_open collected_at api_last_updated
      = Except.error DbError.foreignKeyViolation := by
  have hnot := any_eq_false_of_all_not (fun r => r.id == ride_id) db.rides habs
  simp [insert_wait_time, hnot]

theorem runOps_append (ops1 ops2 : List DbOp) :
    ∀ db, runOps db (ops1 ++ ops2)
      = match runOps db ops1 with
        | Except.ok db2 => runOps db2 ops2
        | Except.error e => Except.error e := by
  induction ops1 with
  | nil => intro db; rfl
  | cons op ops ih =>
    intro db
    rw [List.cons_append]
    simp only [runOps]
    cases hop : execOp db op with
    | ok db2 => exact ih db2
    | error e => rfl

/-! ## Claim C3 -/

/-- C3: upserting a park, a land or a ride twice with the same
primary-key id — even with different attribute values the second time —
leaves exactly one row for that id, carrying the values of the first
insertion; the second call returns successfully (no error) and changes
nothing. -/
theorem upsert_idempotent :
    (∀ (db : Db) (park_id : Int) (n1 n2 : String),
        db.parks.all (fun r => !(r.id == park_id)) = true →
        ∃ db1, insert_park db park_id n1 = Except.ok db1
          ∧ insert_park db1 park_id n2 = Except.ok db1
          ∧ db1.parks.filter (fun r => r.id == park_id)
              = [{ id := park_id, name := n1 }])
    ∧ (∀ (db : Db) (land_id park_id park_id2 : Int) (n1 n2 : String),
        db.lands.all (fun r => !(r.id == land_id)) = true →
        db.parks.any (fun r => r.id == park_id) = true →
        ∃ db1, insert_land db land_id park_id n1 = Except.ok db1
          ∧ insert_land db1 land_id park_id2 n2 = Except.ok db1
          ∧ db1.lands.filter (fun r => r.id == land_id)
              = [{ id := land_id, park_id := park_id, name := n1 }])
    ∧ (∀ (db : Db) (ride_id park_id park_id2 : Int) (n1 n2 : String)
          (land_id land_id2 : Option Int),
        db.rides.all (fun r => !(r.id == ride_id)) = true →
        db.parks.any (fun r => r.id == park_id) = true →
        land_id.all (fun l => db.lands.any (fun r => r.id == l)) = true →
        ∃ db1, insert_ride db ride_id park_id n1 land_id = Except.ok db1
          ∧ insert_ride db1 ride_id park_id2 n2 land_id2 = Except.ok db1
          ∧ db1.rides.filter (fun r => r.id == ride_id)
              = [{ id := ride_id, land_id := land_id, park_id := park_id,
                   name := n1 }]) := by
  refine ⟨?_, ?_, ?_⟩
  · intro db park_id n1 n2 habs
    have hnot := any_eq_false_of_all_not (fun r => r.id == park_id) db.parks habs
    refine ⟨{ db with parks := db.parks ++ [{ id := park_id, name := n1 }] },
      ?_, ?_, ?_⟩
    · simp [insert_park, hnot]
    · have hyes : (db.parks ++ [({ id := park_id, name := n1 } : ParkRow)]).any
          (fun r => r.id == park_id) = true := by
        simp [List.any_append]
      simp [insert_park, hyes]
    · have h1 : db.parks.filter (fun r => r.id == park_id) = [] := by
        rw [List.filter_eq_nil_iff]
        intro x hx
        simpa using List.all_eq_true.1 habs x hx
      simp [List.filter_append, h1]
  · intro db land_id park_id park_id2 n1 n2 habs hpark
    have hnot := any_eq_false_of_all_not (fun r => r.id == land_id) db.lands habs
    refine ⟨{ db with lands := db.lands ++
        [{ id := land_id, park_id := park_id, name := n1 }] }, ?_, ?_, ?_⟩
    · simp [insert_land, hnot, hpark]
    · have hyes : (db.lands
          ++ [({ id := land_id, park_id := park_id, name := n1 } : LandRow)]).any
          (fun r => r.id == land_id) = true := by
        simp [List.any_append]
      simp [insert_land, hyes]
    · have h1 : db.lands.filter (fun r => r.id == land_id) = [] := by
        rw [List.filter_eq_nil_iff]
        intro x hx
        simpa using List.all_eq_true.1 habs x hx
      simp [List.filter_append, h1]
  · intro db ride_id park_id park_id2 n1 n2 land_id land_id2 habs hpark hlands
    have hnot := any_eq_false_of_all_not (fun r => r.id == ride_id) db.rides habs
    refine ⟨{ db with rides := db.rides ++
        [{ id := ride_id, land_id := land_id, park_id := park_id, name := n1 }] },
      ?_, ?_, ?_⟩
    · simp [insert_ride, hnot, hpark, hlands]
    · have hyes : (db.rides
          ++ [({ id := ride_id, land_id := land_id, park_id := park_id,
                 name := n1 } : RideRow)]).any
          (fun r => r.id == ride_id) = true := by
        simp [List.any_append]
      simp [insert_ride, hyes]
    · have h1 : db.rides.filter (fun r => r.id == ride_id) = [] := by
        rw [List.filter_eq_nil_iff]
        intro x hx
        simpa using List.all_eq_true.1 habs x hx
      simp [List.filter_append, h1]

/-- C3 witness: double insertion of park 64 into the empty database, of
land 7 and of ride 102 into `demoDb`, with different second values. -/
theorem upsert_idempotent_witness :
    (emptyDb.parks.all (fun r => !(r.id == (64 : Int))) = true
      ∧ ∃ db1, insert_park emptyDb 64 "A" = Except.ok db1
          ∧ insert_park db1 64 "B" = Except.ok db1
          ∧ db1.parks.filter (fun r => r.id == (64 : Int))
              = [{ id := 64, name := "A" }])
    ∧ (demoDb.lands.all (fun r => !(r.id == (7 : Int))) = true
      ∧ demoDb.parks.any (fun r => r.id == (64 : Int)) = true
      ∧ ∃ db1, insert_land demoDb 7 64 "L1" = Except.ok db1
          ∧ insert_land db1 7 99 "L2" = Except.ok db1
          ∧ db1.lands.filter (fun r => r.id == (7 : Int))
              = [{ id := 7, park_id := 64, name := "L1" }])
    ∧ (demoDb.rides.all (fun r => !(r.id == (102 : Int))) = true
      ∧ demoDb.parks.any (fun r => r.id == (64 : Int)) = true
      ∧ Option.all (fun l => demoDb.lands.any (fun r => r.id == l)) none = true
      ∧ ∃ db1, insert_ride demoDb 102 64 "R1" none = Except.ok db1
          ∧ insert_ride db1 102 99 "R2" (some 7) = Except.ok db1
          ∧ db1.rides.filter (fun r => r.id == (102 : Int))
              = [{ id := 102, land_id := none, park_id := 64, name := "R1" }]) :=
  ⟨⟨by decide, upsert_idempotent.1 emptyDb 64 "A" "B" (by decide)⟩,
   ⟨by decide, by decide,
    upsert_idempotent.2.1 demoDb 7 64 99 "L1" "L2" (by decide) (by decide)⟩,
   ⟨by decide, by decide, by decide,
    upsert_idempotent.2.2 demoDb 102 64 99 "R1" "R2" none (some 7)
      (by decide) (by decide) (by decide)⟩⟩

/-! ## Claim C6 -/

/-- C6: every row written by `insert_wait_time` has its derived fields
computed purely from `collected_at`: `day_of_week` is the weekday
(Monday = 0, in 0-6), `hour` is the hour (0-23), and `is_weekend` holds
exactly when `day_of_week` is 5 or 6. -/
theorem insert_wait_time_derived_fields (db : Db) (ride_id : Int)
    (wait_time : Option Int) (is_open : Bool) (collected_at : PyDateTime)
    (api_last_updated : Option String) (db2 : Db)
    (h : insert_wait_time db ride_id wait_time is_open collected_at api_last_updated
          = Except.ok db2) :
    ∃ row, db2.wait_times = db.wait_times ++ [row]
      ∧ row.day_of_week = collected_at.weekday.val
      ∧ row.hour = collected_at.hour.val
      ∧ row.day_of_week < 7 ∧ row.hour < 24
      ∧ (row.is_weekend = true ↔ (row.day_of_week = 5 ∨ row.day_of_week = 6))
      ∧ row.ride_id = ride_id ∧ row.wait_time = wait_time ∧ row.is_open = is_open
      ∧ row.collected_at = collected_at := by
  simp only [insert_wait_time] at h
  split at h
  case isTrue hc =>
    injection h with h2
    subst h2
    refine ⟨_, rfl, rfl, rfl, collected_at.weekday.isLt, collected_at.hour.isLt,
      ?_, rfl, rfl, rfl, rfl⟩
    show decide (5 ≤ collected_at.weekday.val) = true
      ↔ (collected_at.weekday.val = 5 ∨ collected_at.weekday.val = 6)
    rw [decide_eq_true_eq]
    have := collected_at.weekday.isLt
    omega
  case isFalse hc => exact (Except.noConfusion h)

/-- C6 witness: recording a reading for ride 101 at Monday 14:30 yields
`day_of_week = 0`, `hour = 14`, `is_weekend = false`. -/
theorem insert_wait_time_derived_fields_witness :
    insert_wait_time demoDb 101 (some 30) true demoMonday none
        = Except.ok demoDbMonday
    ∧ (∃ row, demoDbMonday.wait_times = demoDb.wait_times ++ [row]
        ∧ row.day_of_week = demoMonday.weekday.val
        ∧ row.hour = demoMonday.hour.val
        ∧ row.day_of_week < 7 ∧ row.hour < 24
        ∧ (row.is_weekend = true ↔ (row.day_of_week = 5 ∨ row.day_of_week = 6))
        ∧ row.ride_id = 101 ∧ row.wait_time = some 30 ∧ row.is_open = true
        ∧ row.collected_at = demoMonday) :=
  ⟨rfl,
   insert_wait_time_derived_fields demoDb 101 (some 30) true demoMonday none
     demoDbMonday rfl⟩

/-! ## Claim C9 -/

/-- C9: with foreign keys enforced on every connection, a reading whose
`ride_id` matches no ride row fails with a constraint violation instead
of being silently dropped; and since no store call in the collector is
wrapped in a `try`, a run that reaches such a write ends with that error
no matter what operations would have followed. -/
theorem insert_wait_time_missing_ride_fatal :
    (∀ (db : Db) (ride_id : Int) (wait_time : Option Int) (is_open : Bool)
        (collected_at : PyDateTime) (api_last_updated : Option String),
        db.rides.all (fun r => !(r.id == ride_id)) = true →
        insert_wait_time db ride_id wait_time is_open collected_at api_last_updated
          = Except.error DbError.foreignKeyViolation)
    ∧ (∀ (db db2 : Db) (pre post : List DbOp) (ride_id : Int)
          (wait_time : Option Int) (is_open : Bool) (collected_at : PyDateTime)
          (api_last_updated : Option String),
        runOps db pre = Except.ok db2 →
        db2.rides.all (fun r => !(r.id == ride_id)) = true →
        runOps db
            (pre ++ DbOp.wait ride_id wait_time is_open collected_at api_last_updated
              :: post)
          = Except.error DbError.foreignKeyViolation) := by
  constructor
  · intro db ride_id wait_time is_open collected_at api_last_updated habs
    exact insert_wait_time_missing_ride db ride_id wait_time is_open collected_at
      api_last_updated habs
  · intro db db2 pre post ride_id wait_time is_open collected_at api_last_updated
      hpre habs
    rw [runOps_append, hpre]
    simp only [runOps, execOp]
    rw [insert_wait_time_missing_ride db2 ride_id wait_time is_open collected_at
      api_last_updated habs]

/-- C9 witness: a reading for the nonexistent ride 999 fails on the
empty database, and aborts a run right after a successful park insert,
with a later operation never reached. -/
theorem insert_wait_time_missing_ride_fatal_witness :
    emptyDb.rides.all (fun r => !(r.id == (999 : Int))) = true
    ∧ insert_wait_time emptyDb 999 none false demoMonday none
        = Except.error DbError.foreignKeyViolation
    ∧ runOps emptyDb [DbOp.park 64 "Islands of Adventure"]
        = Except.ok demoParkOnlyDb
    ∧ demoParkOnlyDb.rides.all (fun r => !(r.id == (999 : Int))) = true
    ∧ runOps emptyDb
        ([DbOp.park 64 "Islands of Adventure"]
          ++ DbOp.wait 999 none false demoMonday none
            :: [DbOp.park 65 "Universal Studios Florida"])
        = Except.error DbError.foreignKeyViolation :=
  ⟨rfl,
   insert_wait_time_missing_ride_fatal.1 emptyDb 999 none false demoMonday none rfl,
   rfl, rfl,
   insert_wait_time_missing_ride_fatal.2 emptyDb demoParkOnlyDb
     [DbOp.park 64 "Islands of Adventure"]
     [DbOp.park 65 "Universal Studios Florida"]
     999 none false demoMonday none rfl rfl⟩

end WaitTracker
